import Mathlib

/-!
A shallow embedding of `src/BookmarkServer.py`: a bookmark server keeping a
dictionary `memory` from short names to long URIs, with three request flows
(form display, redirect lookup, registration) and a liveness check
(`CheckURI`) guarding every insertion.

The outbound network call of `requests.get` is modelled by an oracle
`fetch : String → Nat → FetchResult` (URI and timeout in, outcome out).
Python's `None` / `False` / `True` return values of `CheckURI` are modelled
by `Option Bool` (`none` = `None`). An exception escaping `do_POST` is
modelled by `Except.error`.
-/

namespace BookmarkServer

/-- Outcome of the single outbound GET performed by `requests.get`:
either a response carrying a status code, or a raised `RequestException`. -/
inductive FetchResult where
  | success (statusCode : Nat)
  | failure
deriving DecidableEq

/-- `CheckURI(uri, timeout=5)` from BookmarkServer.py lines 61-74.
The Python body is `try: response = requests.get(uri, timeout); if
response.status_code == 200: return True / except RequestException: return
False`.  When the GET succeeds with a status other than 200 the function
falls off the end, i.e. returns Python `None`, modelled here as `none`. -/
def CheckURI (fetch : String → Nat → FetchResult) (uri : String) (timeout : Nat) : Option Bool :=
  match fetch uri timeout with
  | FetchResult.success code => if code = 200 then some true else none
  | FetchResult.failure => some false

/-- Python truthiness of the `Option Bool` value returned by `CheckURI`
(`None` and `False` are falsy, `True` is truthy). -/
def isTruthy : Option Bool → Bool
  | some true => true
  | _ => false

/-- Value of a hexadecimal digit character, if it is one. -/
def hexDigitVal (c : Char) : Option Nat :=
  if Char.ofNat 48 ≤ c ∧ c ≤ Char.ofNat 57 then some (c.toNat - 48)
  else if Char.ofNat 97 ≤ c ∧ c ≤ Char.ofNat 102 then some (c.toNat - 97 + 10)
  else if Char.ofNat 65 ≤ c ∧ c ≤ Char.ofNat 70 then some (c.toNat - 65 + 10)
  else none

/-- Percent-decoding of `urllib.parse.unquote`, on the character list
(ASCII model): `%xy` with two hex digits becomes the character with that
code, anything else passes through. -/
def percentDecodeAux : List Char → List Char
  | [] => []
  | [c] => [c]
  | [c, a] => [c, a]
  | c :: a :: b :: rest =>
    if c = Char.ofNat 37 then
      match hexDigitVal a, hexDigitVal b with
      | some hi, some lo => Char.ofNat (16 * hi + lo) :: percentDecodeAux rest
      | some _, none => c :: percentDecodeAux (a :: b :: rest)
      | none, _ => c :: percentDecodeAux (a :: b :: rest)
    else c :: percentDecodeAux (a :: b :: rest)

/-- `urllib.parse.unquote` (ASCII model). -/
def unquote (s : String) : String :=
  String.mk (percentDecodeAux s.data)

/-- The value decoding done inside `parse_qs` on each kept name and value:
replace `+` by a space, then percent-decode. -/
def decodeValue (l : List Char) : String :=
  String.mk (percentDecodeAux (l.map fun c => if c = Char.ofNat 43 then Char.ofNat 32 else c))

/-- Python `s.split(sep)` for a one-character separator, on character
lists (structural, so the kernel can evaluate it). -/
def splitOnChar (sep : Char) : List Char → List (List Char)
  | [] => [[]]
  | c :: rest =>
    if c = sep then [] :: splitOnChar sep rest
    else
      match splitOnChar sep rest with
      | [] => [[c]]
      | h :: t => (c :: h) :: t

/-- Python `s.split("=", 1)`: split at the FIRST `=` only.  Returns `none`
when the string contains no `=` at all. -/
def splitAtFirstEq : List Char → Option (List Char × List Char)
  | [] => none
  | c :: rest =>
    if c = Char.ofNat 61 then some ([], rest)
    else
      match splitAtFirstEq rest with
      | none => none
      | some kv => some (c :: kv.1, kv.2)

/-- `urllib.parse.parse_qs(body)` with its defaults
(`keep_blank_values=False`, `strict_parsing=False`), flattened to the list
of (name, value) pairs in body order: pairs are separated by `&`, a pair
without `=` is dropped, a pair whose raw value is empty is dropped, and
name and value are both `+`/percent decoded.  The Python dict of
value-lists is recovered through `firstValue` (`params[k][0]`) and
`hasKey` (`k in params`). -/
def parseQs (body : String) : List (String × String) :=
  (splitOnChar (Char.ofNat 38) body.data).filterMap fun pair =>
    match splitAtFirstEq pair with
    | some kv =>
      if kv.2 = [] then none
      else some (decodeValue kv.1, decodeValue kv.2)
    | none => none

/-- `k in params` on the parsed form data. -/
def hasKey (params : List (String × String)) (k : String) : Bool :=
  params.any fun kv => kv.1 == k

/-- `params[k][0]` on the parsed form data (first value for key `k`),
`none` when the key is absent. -/
def firstValue (params : List (String × String)) (k : String) : Option String :=
  (params.find? fun kv => kv.1 == k).map Prod.snd

/-- The global dictionary `memory` (line 31), as an association list with
at most one binding per key (maintained by `putReg`). -/
abbrev Registry := List (String × String)

/-- Dictionary lookup `memory[name]` / `name in memory`. -/
def lookupReg (mem : Registry) (k : String) : Option String :=
  (mem.find? fun kv => kv.1 == k).map Prod.snd

/-- Dictionary assignment `memory[shortname] = longuri`: overwrite the
existing binding of the key if present, otherwise append a new one. -/
def putReg (mem : Registry) (k v : String) : Registry :=
  match mem with
  | [] => [(k, v)]
  | kv :: rest => if kv.1 == k then (k, v) :: rest else kv :: putReg rest k v

/-- An HTTP response as assembled by the handler: status code from
`send_response`, headers from `send_header`, body from `wfile.write`. -/
structure Response where
  status : Nat
  headers : List (String × String)
  body : String
deriving DecidableEq

/-- One escaped character of `html.escape` (with its default
`quote=True`). -/
def htmlEscapeChar (c : Char) : String :=
  if c = Char.ofNat 38 then "&amp;"
  else if c = Char.ofNat 60 then "&lt;"
  else if c = Char.ofNat 62 then "&gt;"
  else if c = Char.ofNat 34 then "&quot;"
  else if c = Char.ofNat 39 then "&#x27;"
  else String.mk [c]

/-- `html.escape` from the `html` module. -/
def htmlEscape (s : String) : String :=
  String.join (s.data.map htmlEscapeChar)

/-- Strip leading and trailing blanks (the whitespace around
`;`-separated cookie items). -/
def trimChars (l : List Char) : List Char :=
  ((l.dropWhile fun c => c = Char.ofNat 32).reverse.dropWhile fun c => c = Char.ofNat 32).reverse

/-- Modelled from the request-cookie side of `http.cookies.SimpleCookie`
(an external stdlib collaborator): parse the Cookie header as
`;`-separated `key=value` items and extract the value of `yourname`;
`none` models the `KeyError` / `CookieError` caught at lines 97-99 (no
`yourname` morsel, or unparsable header). -/
def simpleCookieYourname (header : String) : Option String :=
  firstValue
    ((splitOnChar (Char.ofNat 59) header.data).filterMap fun item =>
      match splitAtFirstEq (trimChars item) with
      | some kv => some (String.mk kv.1, String.mk kv.2)
      | none => none)
    "yourname"

/-- The HTML of the `form` template (lines 33-57) before the `{}`
placeholder filled by `form.format(finalOutput)`. -/
def formHead : String :=
  "<!DOCTYPE html>\n<title>Bookmark Server</title>\n<form method=\"POST\">\n    <p>\n        <label>What's your name again?\n            <input type=\"text\" name=\"yourname\">\n        </label>\n    </p>\n    <p>    \n        <label>Long URI:\n            <input name=\"longuri\">\n        </label>\n        <br>\n        <label>Short name:\n            <input name=\"shortname\">\n        </label>\n        <br>\n        <button type=\"submit\">Save it!</button>\n    </p>\n</form>\n<p>URIs I know about:\n<pre>\n"

/-- The HTML of the `form` template after the placeholder. -/
def formTail : String :=
  "\n</pre>\n"

/-- `sorted(memory.keys())` (line 120). -/
def snapshotKeys (mem : Registry) : List String :=
  (mem.map Prod.fst).insertionSort (fun a b => a ≤ b)

/-- The rendered listing lines `"{} : {}".format(key, memory[key])` for
the sorted keys (lines 119-120). -/
def snapshotLines (mem : Registry) : List String :=
  (snapshotKeys mem).map fun k => k ++ " : " ++ (lookupReg mem k).getD ""

/-- The full form page body written at line 122:
`form.format(known + "\n" + message)`. -/
def renderForm (mem : Registry) (message : String) : String :=
  formHead ++ (String.intercalate "\n" (snapshotLines mem) ++ "\n" ++ message) ++ formTail

/-- The (name, message) pair after the cookie inspection of lines 83-99.
Crucially, a successfully parsed `yourname` cookie OVERWRITES the variable
`name` that previously held the decoded request path (line 93). -/
def cookieNameMessage (name0 : String) : Option String → String × String
  | none => (name0, "I don't know you yet!")
  | some h =>
    match simpleCookieYourname h with
    | some v => (v, "Hey there, " ++ htmlEscape v)
    | none => (name0, "I'm not sure who you are!")

/-- `Shortener.do_GET` (lines 78-122): `name = unquote(self.path[1:])`,
cookie inspection possibly rebinding `name`, then redirect / 404 / form. -/
def do_GET (mem : Registry) (path : String) (cookieHeader : Option String) : Response :=
  let nm := cookieNameMessage (unquote (String.mk (path.data.drop 1))) cookieHeader
  if nm.1 ≠ "" then
    match lookupReg mem nm.1 with
    | some uri => ⟨303, [("Location", uri)], ""⟩
    | none =>
      ⟨404, [("Content-type", "text/plain; charset=utf-8")],
        "I don't know '" ++ nm.1 ++ "'."⟩
  else
    ⟨200, [("Content-type", "text/html")], renderForm mem nm.2⟩

/-- The 400 response of lines 140-143. -/
def missingFieldsResponse : Response :=
  ⟨400, [("Content-type", "text/html charset=utf-8")], "Missing form fields!"⟩

/-- The 404 response of lines 159-162. -/
def unfairResponse : Response :=
  ⟨404, [("Content-type", "text/html charset=utf-8")], "This is unfair!"⟩

/-- `iAmCookie["yourname"].OutputString()` for the cookie built at lines
132-135 (attributes sorted by `Morsel.OutputString`). -/
def cookieOutputString (yourname : String) : String :=
  "yourname=" ++ yourname ++ "; Domain=localhost; Max-Age=600"

/-- `Shortener.do_POST` (lines 124-162).  The body is the decoded request
body (the content-length bounded read of line 126-127 is a transport
detail).  Line 129 `parse_qs(body)["yourname"][0]` raises `KeyError`
whenever the parsed form has no `yourname` key; this happens BEFORE the
missing-field check of line 138 and is modelled by `Except.error`. -/
def do_POST (mem : Registry) (fetch : String → Nat → FetchResult) (body : String) :
    Except String (Registry × Response) :=
  match firstValue (parseQs body) "yourname" with
  | none => Except.error "KeyError: yourname"
  | some yourname =>
    match firstValue (parseQs body) "longuri" with
    | none => Except.ok (mem, missingFieldsResponse)
    | some longuri =>
      match firstValue (parseQs body) "shortname" with
      | none => Except.ok (mem, missingFieldsResponse)
      | some shortname =>
        if isTruthy (CheckURI fetch longuri 5) then
          Except.ok (putReg mem shortname longuri,
            ⟨303, [("Location", "/"), ("Set-Cookie", cookieOutputString yourname)], ""⟩)
        else
          Except.ok (mem, unfairResponse)

/-- One inbound request, as far as the registry state is concerned. -/
inductive Event where
  | get (path : String) (cookieHeader : Option String)
  | post (fetch : String → Nat → FetchResult) (body : String)

/-- The registry after a POST: the new state on a normal return, the old
state when the handler raises (the mutation at line 151 happens after the
only raising statement). -/
def postStep (mem : Registry) (fetch : String → Nat → FetchResult) (body : String) : Registry :=
  match do_POST mem fetch body with
  | Except.ok res => res.1
  | Except.error _ => mem

/-- The registry after handling one request (`do_GET` never mutates it). -/
def step (mem : Registry) : Event → Registry
  | Event.get _ _ => mem
  | Event.post fetch body => postStep mem fetch body

/-! Helper lemmas about the dictionary, the form parser and the POST step. -/

/-- Dictionary semantics: after `memory[k] = v`, looking up `k` yields `v`
(an existing binding is overwritten). -/
theorem lookupReg_putReg_same (mem : Registry) (k v : String) :
    lookupReg (putReg mem k v) k = some v := by
  induction mem with
  | nil => simp [putReg, lookupReg, List.find?]
  | cons kv rest ih =>
    by_cases h : kv.1 == k
    · simp [putReg, lookupReg, List.find?, h]
    · simp only [putReg, h, if_false, Bool.false_eq_true, ite_false]
      simpa [lookupReg, List.find?, h] using ih

/-- Dictionary semantics: `memory[k] = v` does not change the binding of
any other key. -/
theorem lookupReg_putReg_other (mem : Registry) (k v n : String) (h : n ≠ k) :
    lookupReg (putReg mem k v) n = lookupReg mem n := by
  induction mem with
  | nil =>
    simp only [putReg, lookupReg, List.find?]
    have : (k == n) = false := by simpa using fun he => h he.symm
    simp [this]
  | cons kv rest ih =>
    by_cases hk : kv.1 == k
    · have h1 : (kv.1 == n) = false := by
        have hkk : kv.1 = k := by simpa using hk
        simpa [hkk] using fun he => h he.symm
      have h2 : (k == n) = false := by simpa using fun he => h he.symm
      simp [putReg, lookupReg, List.find?, hk, h1, h2]
    · by_cases hn : kv.1 == n
      · simp [putReg, lookupReg, List.find?, hk, hn]
      · simp only [putReg, hk, if_false, Bool.false_eq_true, ite_false]
        simpa [lookupReg, List.find?, hk, hn] using ih

/-- The two possible origins of a binding observed after `memory[k] = v`. -/
theorem putReg_lookup_cases (mem : Registry) (k v n u : String)
    (h : lookupReg (putReg mem k v) n = some u) :
    (n = k ∧ u = v) ∨ lookupReg mem n = some u := by
  by_cases hk : n = k
  · subst hk
    rw [lookupReg_putReg_same] at h
    exact Or.inl ⟨rfl, (Option.some.inj h).symm⟩
  · rw [lookupReg_putReg_other mem k v n hk] at h
    exact Or.inr h

/-- Percent-decoding never turns a nonempty character list into an empty
one. -/
theorem percentDecodeAux_ne_nil : ∀ l : List Char, l ≠ [] → percentDecodeAux l ≠ []
  | [], h => absurd rfl h
  | [_], _ => by simp [percentDecodeAux]
  | [_, _], _ => by simp [percentDecodeAux]
  | _ :: _ :: _ :: _, _ => by
    simp only [percentDecodeAux]
    split
    · split <;> simp
    · simp

/-- The decoded form of a nonempty raw field value is nonempty. -/
theorem decodeValue_ne_empty (l : List Char) (h : l ≠ []) : decodeValue l ≠ "" := by
  intro he
  have hd : percentDecodeAux (l.map fun c => if c = Char.ofNat 43 then Char.ofNat 32 else c) = [] :=
    congrArg String.data he
  have hm : (l.map fun c => if c = Char.ofNat 43 then Char.ofNat 32 else c) ≠ [] := by
    simpa using h
  exact percentDecodeAux_ne_nil _ hm hd

/-- `parse_qs` with `keep_blank_values=False` never keeps a pair with an
empty value: every value in the parsed form data is nonempty. -/
theorem parseQs_snd_ne_empty (body : String) (p : String × String)
    (hp : p ∈ parseQs body) : p.2 ≠ "" := by
  simp only [parseQs, List.mem_filterMap] at hp
  obtain ⟨pair, _, hf⟩ := hp
  cases hsp : splitAtFirstEq pair with
  | none => rw [hsp] at hf; simp at hf
  | some kv =>
    rw [hsp] at hf
    by_cases hv : kv.2 = []
    · simp [hv] at hf
    · simp only [hv, if_false, ite_false, Option.some.injEq] at hf
      rw [← hf]
      exact decodeValue_ne_empty kv.2 hv

/-- A key whose first value is `v` contributes the pair `(k, v)` to the
parsed form data. -/
theorem firstValue_mem (params : List (String × String)) (k v : String)
    (h : firstValue params k = some v) : (k, v) ∈ params := by
  simp only [firstValue, Option.map_eq_some'] at h
  obtain ⟨p, hf, hv⟩ := h
  have hm := List.mem_of_find?_eq_some hf
  have hk : p.1 = k := by simpa using List.find?_some hf
  cases p
  simp_all

/-- A binding present in the registry is one of its entries. -/
theorem lookupReg_mem (mem : Registry) (n u : String)
    (h : lookupReg mem n = some u) : (n, u) ∈ mem :=
  firstValue_mem mem n u h

/-- How one POST changes the registry: either not at all, or by the single
`memory[shortname] = longuri` assignment guarded by `CheckURI`. -/
theorem postStep_cases (mem : Registry) (fetch : String → Nat → FetchResult) (body : String) :
    postStep mem fetch body = mem ∨
      ∃ lu sn, firstValue (parseQs body) "longuri" = some lu ∧
        firstValue (parseQs body) "shortname" = some sn ∧
        isTruthy (CheckURI fetch lu 5) = true ∧
        postStep mem fetch body = putReg mem sn lu := by
  unfold postStep do_POST
  cases hy : firstValue (parseQs body) "yourname" with
  | none => exact Or.inl rfl
  | some yn =>
    cases hl : firstValue (parseQs body) "longuri" with
    | none => exact Or.inl rfl
    | some lu =>
      cases hs : firstValue (parseQs body) "shortname" with
      | none => exact Or.inl rfl
      | some sn =>
        by_cases hc : isTruthy (CheckURI fetch lu 5) = true
        · exact Or.inr ⟨lu, sn, rfl, rfl, hc, by simp [hc]⟩
        · left
          simp [hc]

/-! The claims. -/

/-- C1: the claim says a GET to `/<name>` for a stored `(name, uri)` pair
yields a 303 to exactly `uri` whatever Cookie header the request carries.
The code reuses the variable `name` for the parsed cookie value (line 93),
so with a parsable `yourname` cookie the dictionary lookup uses the cookie
value instead of the decoded path: with `ex ↦ http://example.com` stored,
`GET /ex` with `Cookie: yourname=zzz` receives 404 naming `zzz`,
contradicting the module docstring (lines 16-18). -/
theorem c1_cookie_value_shadows_path_name :
    lookupReg [("ex", "http://example.com")] "ex" = some "http://example.com" ∧
    do_GET [("ex", "http://example.com")] "/ex" (some "yourname=zzz") =
      ⟨404, [("Content-type", "text/plain; charset=utf-8")], "I don't know 'zzz'."⟩ :=
  ⟨rfl, rfl⟩

/-- C2: the claim says a GET to the root always answers 200 with the form
page, the Cookie header influencing only the greeting.  In the code a
parsable nonempty `yourname` cookie overwrites the empty path name
(line 93) and routes the request into the redirect-lookup flow instead:
`GET /` with `Cookie: yourname=bob` receives 404, while the same request
without a cookie receives the 200 form page with the generic greeting. -/
theorem c2_cookie_changes_root_routing :
    do_GET [] "/" (some "yourname=bob") =
      ⟨404, [("Content-type", "text/plain; charset=utf-8")], "I don't know 'bob'."⟩ ∧
    do_GET [] "/" none =
      ⟨200, [("Content-type", "text/html")], renderForm [] "I don't know you yet!"⟩ :=
  ⟨rfl, rfl⟩

/-- C3: the claim says any POST lacking `longuri` or `shortname` —
regardless of whether `yourname` is present — receives a 400
missing-fields response with no state change.  Line 129 evaluates
`parse_qs(body)["yourname"][0]` before that check, so a body that also
lacks `yourname` raises `KeyError` and never reaches the 400 path:
evaluated at body `longuri=http://x` (shortname and yourname absent). -/
theorem c3_missing_fields_check_unreachable :
    do_POST [] (fun _ _ => FetchResult.failure) "longuri=http://x" =
      Except.error "KeyError: yourname" := rfl

/-- C4: the claim says the handlers are total and in particular `do_POST`
never raises on any form body.  `do_POST` raises `KeyError` on every body
whose parsed form has no `yourname` key (line 129): evaluated at body
`a=b`. -/
theorem c4_do_POST_raises_without_yourname :
    do_POST [] (fun _ _ => FetchResult.failure) "a=b" =
      Except.error "KeyError: yourname" := rfl

/-- C5: the claim says `CheckURI` returns exactly `True` on a 200 and
exactly `False` in every other case.  The Python function returns `True`
on status 200 and `False` when the GET raises, but on a response with any
other status code it falls off the end and returns `None` (modelled
`none`), not `False` — contradicting its own docstring (lines 64-66). -/
theorem c5_CheckURI_three_valued :
    CheckURI (fun _ _ => FetchResult.success 200) "http://example.com" 5 = some true ∧
    CheckURI (fun _ _ => FetchResult.failure) "http://example.com" 5 = some false ∧
    CheckURI (fun _ _ => FetchResult.success 404) "http://example.com" 5 = none :=
  ⟨rfl, rfl, rfl⟩

/-- C6 counterexample: a POST carrying both `longuri` and `shortname` but
no `yourname`, whose liveness check fails, does not receive the claimed
404 response — `do_POST` raises `KeyError` at line 129 before reaching
the validation branch. -/
theorem c6_counterexample_missing_yourname :
    do_POST [] (fun _ _ => FetchResult.failure) "longuri=http://dead&shortname=d" =
      Except.error "KeyError: yourname" := rfl

/-- C6 (amended): for every POST whose parsed form carries `yourname`,
`longuri` and `shortname` and whose liveness check is not truthy, the
response is the 404 "This is unfair!" one, it carries no Set-Cookie
header, and the registry is returned unchanged. -/
theorem c6_validation_failure_rejected (mem : Registry)
    (fetch : String → Nat → FetchResult) (body yn lu sn : String)
    (hy : firstValue (parseQs body) "yourname" = some yn)
    (hl : firstValue (parseQs body) "longuri" = some lu)
    (hs : firstValue (parseQs body) "shortname" = some sn)
    (hc : isTruthy (CheckURI fetch lu 5) = false) :
    do_POST mem fetch body = Except.ok (mem, unfairResponse) ∧
      unfairResponse.status = 404 ∧
      unfairResponse.headers.all (fun hd => hd.1 != "Set-Cookie") = true := by
  refine ⟨?_, rfl, by decide⟩
  simp [do_POST, hy, hl, hs, hc]

/-- C6 witness: the amended C6 instantiated at a concrete rejected
submission. -/
theorem c6_validation_failure_rejected_witness :
    firstValue (parseQs "yourname=a&longuri=http://dead&shortname=d") "yourname" = some "a" ∧
    firstValue (parseQs "yourname=a&longuri=http://dead&shortname=d") "longuri" =
      some "http://dead" ∧
    firstValue (parseQs "yourname=a&longuri=http://dead&shortname=d") "shortname" = some "d" ∧
    isTruthy (CheckURI (fun _ _ => FetchResult.failure) "http://dead" 5) = false ∧
    (do_POST [] (fun _ _ => FetchResult.failure) "yourname=a&longuri=http://dead&shortname=d" =
        Except.ok ([], unfairResponse) ∧
      unfairResponse.status = 404 ∧
      unfairResponse.headers.all (fun hd => hd.1 != "Set-Cookie") = true) :=
  ⟨rfl, rfl, rfl, rfl,
    c6_validation_failure_rejected [] (fun _ _ => FetchResult.failure)
      "yourname=a&longuri=http://dead&shortname=d" "a" "http://dead" "d" rfl rfl rfl rfl⟩

/-- C7 counterexample: a POST carrying `longuri` and `shortname` but no
`yourname`, whose liveness check would succeed, does not register
anything and does not receive the claimed 303 — `do_POST` raises
`KeyError` at line 129. -/
theorem c7_counterexample_missing_yourname :
    do_POST [] (fun _ _ => FetchResult.success 200) "longuri=http://live&shortname=l" =
      Except.error "KeyError: yourname" := rfl

/-- C7 (amended): for every POST whose parsed form carries `yourname`,
`longuri` and `shortname` and whose liveness check is truthy, the registry
afterwards maps `shortname` to `longuri` (overwriting any previous
binding of that name), and the response is a 303 with `Location: /` and a
`Set-Cookie` header `yourname=<value>; Domain=localhost; Max-Age=600`. -/
theorem c7_successful_registration (mem : Registry)
    (fetch : String → Nat → FetchResult) (body yn lu sn : String)
    (hy : firstValue (parseQs body) "yourname" = some yn)
    (hl : firstValue (parseQs body) "longuri" = some lu)
    (hs : firstValue (parseQs body) "shortname" = some sn)
    (hc : isTruthy (CheckURI fetch lu 5) = true) :
    do_POST mem fetch body =
      Except.ok (putReg mem sn lu,
        ⟨303, [("Location", "/"), ("Set-Cookie", cookieOutputString yn)], ""⟩) ∧
      lookupReg (putReg mem sn lu) sn = some lu ∧
      cookieOutputString yn = "yourname=" ++ yn ++ "; Domain=localhost; Max-Age=600" := by
  refine ⟨?_, lookupReg_putReg_same mem sn lu, rfl⟩
  simp [do_POST, hy, hl, hs, hc]

/-- C7 witness: the amended C7 instantiated at a concrete successful
re-registration of the short name `s` (overwrite of `http://old`). -/
theorem c7_successful_registration_witness :
    firstValue (parseQs "yourname=Ann&longuri=http://live&shortname=s") "yourname" = some "Ann" ∧
    firstValue (parseQs "yourname=Ann&longuri=http://live&shortname=s") "longuri" =
      some "http://live" ∧
    firstValue (parseQs "yourname=Ann&longuri=http://live&shortname=s") "shortname" = some "s" ∧
    isTruthy (CheckURI (fun _ _ => FetchResult.success 200) "http://live" 5) = true ∧
    (do_POST [("s", "http://old")] (fun _ _ => FetchResult.success 200)
        "yourname=Ann&longuri=http://live&shortname=s" =
      Except.ok (putReg [("s", "http://old")] "s" "http://live",
        ⟨303, [("Location", "/"), ("Set-Cookie", cookieOutputString "Ann")], ""⟩) ∧
      lookupReg (putReg [("s", "http://old")] "s" "http://live") "s" = some "http://live" ∧
      cookieOutputString "Ann" = "yourname=" ++ "Ann" ++ "; Domain=localhost; Max-Age=600") :=
  ⟨rfl, rfl, rfl, rfl,
    c7_successful_registration [("s", "http://old")] (fun _ _ => FetchResult.success 200)
      "yourname=Ann&longuri=http://live&shortname=s" "Ann" "http://live" "s" rfl rfl rfl rfl⟩

/-- C8: every binding observed after a request step either existed before
or was written by the single `memory[shortname] = longuri` assignment,
which only executes when `CheckURI` on that URI is truthy; and the
rendered listing enumerates the registry sorted by short name in
ascending order, with each stored pair appearing as its `name : uri`
line. -/
theorem c8_registry_invariant :
    (∀ (mem : Registry) (ev : Event) (n u : String),
        lookupReg (step mem ev) n = some u →
        lookupReg mem n = some u ∨
          ∃ fetch body, ev = Event.post fetch body ∧
            isTruthy (CheckURI fetch u 5) = true) ∧
    (∀ mem : Registry, (snapshotKeys mem).Sorted (fun a b => a ≤ b)) ∧
    (∀ (mem : Registry) (n u : String), lookupReg mem n = some u →
        n ∈ snapshotKeys mem ∧ (n ++ " : " ++ u) ∈ snapshotLines mem) := by
  refine ⟨?_, ?_, ?_⟩
  · intro mem ev n u h
    cases ev with
    | get p c => exact Or.inl h
    | post fetch body =>
      simp only [step] at h
      rcases postStep_cases mem fetch body with heq | ⟨lu, sn, hl, hs, hc, heq⟩
      · rw [heq] at h
        exact Or.inl h
      · rw [heq] at h
        rcases putReg_lookup_cases mem sn lu n u h with ⟨hn, hu⟩ | hm
        · exact Or.inr ⟨fetch, body, rfl, by rw [hu]; exact hc⟩
        · exact Or.inl hm
  · intro mem
    exact List.sorted_insertionSort _ _
  · intro mem n u h
    have hmem := lookupReg_mem mem n u h
    have hkey : n ∈ mem.map Prod.fst := List.mem_map_of_mem Prod.fst hmem
    have hks : n ∈ snapshotKeys mem := by
      unfold snapshotKeys
      exact ((List.perm_insertionSort _ _).mem_iff).mpr hkey
    refine ⟨hks, ?_⟩
    have hline := List.mem_map_of_mem (fun k => k ++ " : " ++ (lookupReg mem k).getD "") hks
    simpa [snapshotLines, h] using hline

/-- C8 witness: the invariant instantiated at a registration adding
`s ↦ http://x` to the empty registry under an oracle answering 200. -/
theorem c8_registry_invariant_witness :
    lookupReg (step [] (Event.post (fun _ _ => FetchResult.success 200)
        "yourname=a&longuri=http://x&shortname=s")) "s" = some "http://x" ∧
    (lookupReg ([] : Registry) "s" = some "http://x" ∨
      ∃ fetch body,
        Event.post (fun _ _ => FetchResult.success 200)
            "yourname=a&longuri=http://x&shortname=s" =
          Event.post fetch body ∧
        isTruthy (CheckURI fetch "http://x" 5) = true) :=
  ⟨rfl,
    c8_registry_invariant.1 []
      (Event.post (fun _ _ => FetchResult.success 200) "yourname=a&longuri=http://x&shortname=s")
      "s" "http://x" rfl⟩

/-- C10 counterexample: the claim says a POST whose only field is a blank
`shortname=` is answered with status 400.  Because the blank value is
dropped, the parsed form also lacks `yourname`, so `do_POST` raises
`KeyError` at line 129 instead of responding 400. -/
theorem c10_counterexample_blank_shortname :
    do_POST [] (fun _ _ => FetchResult.failure) "shortname=" =
      Except.error "KeyError: yourname" := rfl

/-- C10 (amended): a form field submitted with an empty value is dropped
by the parser (concretely and in general every kept value is nonempty);
when the form does carry `yourname`, a dropped `longuri` or `shortname`
leads to the 400 missing-fields response with the registry unchanged; and
no step can ever register an empty short name or an empty long URI. -/
theorem c10_blank_fields_dropped :
    (parseQs "yourname=a&longuri=http://x&shortname=" =
        [("yourname", "a"), ("longuri", "http://x")]) ∧
    (∀ (body : String) (p : String × String), p ∈ parseQs body → p.2 ≠ "") ∧
    (∀ (mem : Registry) (fetch : String → Nat → FetchResult) (body yn : String),
        firstValue (parseQs body) "yourname" = some yn →
        (firstValue (parseQs body) "longuri" = none ∨
          firstValue (parseQs body) "shortname" = none) →
        do_POST mem fetch body = Except.ok (mem, missingFieldsResponse)) ∧
    (∀ (mem : Registry) (ev : Event), lookupReg (step mem ev) "" = lookupReg mem "") ∧
    (∀ (mem : Registry) (ev : Event) (n : String),
        lookupReg (step mem ev) n = some "" → lookupReg mem n = some "") := by
  refine ⟨rfl, ?_, ?_, ?_, ?_⟩
  · exact fun body p hp => parseQs_snd_ne_empty body p hp
  · intro mem fetch body yn hy hmiss
    rcases hmiss with hl | hs
    · simp [do_POST, hy, hl]
    · cases hl : firstValue (parseQs body) "longuri" with
      | none => simp [do_POST, hy, hl]
      | some lu => simp [do_POST, hy, hl, hs]
  · intro mem ev
    cases ev with
    | get _ _ => rfl
    | post fetch body =>
      simp only [step]
      rcases postStep_cases mem fetch body with heq | ⟨lu, sn, hl, hs, hc, heq⟩
      · rw [heq]
      · rw [heq]
        have hsn : sn ≠ "" :=
          parseQs_snd_ne_empty body ("shortname", sn) (firstValue_mem _ _ _ hs)
        exact lookupReg_putReg_other mem sn lu "" (Ne.symm hsn)
  · intro mem ev n h
    cases ev with
    | get _ _ => exact h
    | post fetch body =>
      simp only [step] at h
      rcases postStep_cases mem fetch body with heq | ⟨lu, sn, hl, hs, hc, heq⟩
      · rw [heq] at h
        exact h
      · rw [heq] at h
        rcases putReg_lookup_cases mem sn lu n "" h with ⟨hn, hu⟩ | hm
        · exact absurd hu.symm
            (parseQs_snd_ne_empty body ("longuri", lu) (firstValue_mem _ _ _ hl))
        · exact hm

/-- C10 witness: the amended C10 instantiated at the body
`yourname=a&shortname=` (blank shortname dropped, 400 response). -/
theorem c10_blank_fields_dropped_witness :
    firstValue (parseQs "yourname=a&shortname=") "yourname" = some "a" ∧
    (firstValue (parseQs "yourname=a&shortname=") "longuri" = none ∨
      firstValue (parseQs "yourname=a&shortname=") "shortname" = none) ∧
    do_POST [] (fun _ _ => FetchResult.failure) "yourname=a&shortname=" =
      Except.ok ([], missingFieldsResponse) :=
  ⟨rfl, Or.inl rfl,
    c10_blank_fields_dropped.2.2.1 [] (fun _ _ => FetchResult.failure)
      "yourname=a&shortname=" "a" rfl (Or.inl rfl)⟩

end BookmarkServer
